import Mathlib

/-!
Verification of the SupposedBot support-ticket assistant.

The development shallowly embeds the conversational core of the repository:
the command interpreter and ticket flow of `whatsappService.js`
(`handleUserInput`, `generateTicketNumber`, `saveTicket`,
`checkForNewMessages`), the server endpoints `/messages` and `/save-ticket`
of `server.js`, and the timestamp filtering of `messageStorage.js`.

JavaScript strings are represented as `List Char`; JavaScript `Map`/`Set`
objects as insertion-ordered association lists / duplicate-free lists;
wall-clock instants (`Date.now()`, ISO timestamps) as natural numbers
counting milliseconds.  Transport calls (`sendMessage`, `sendImage`,
`saveTicket`) are modelled by recording their effects in the result of the
transition function; the error paths of the transports are out of scope, as
in the specification.
-/

set_option maxRecDepth 100000

namespace SupposedBot

/-- JavaScript strings, embedded as lists of characters. -/
abbrev Str := List Char

/-- Whitespace characters trimmed by JavaScript `String.prototype.trim`
(the ASCII ones that can occur in chat text). -/
def isWhitespaceChar (c : Char) : Bool :=
  c == ' ' || c == '\t' || c == '\n' || c == '\r'

/-- JavaScript `s.toLowerCase()` (ASCII case folding suffices for the
catalog and command text). -/
def jsToLower (s : Str) : Str := s.map Char.toLower

/-- JavaScript `s.trim()`. -/
def jsTrim (s : Str) : Str :=
  ((s.dropWhile isWhitespaceChar).reverse.dropWhile isWhitespaceChar).reverse

/-- JavaScript `s.startsWith(p)`. -/
def jsStartsWith (p s : Str) : Bool := p.isPrefixOf s

/-- JavaScript `s.includes(sub)`. -/
def jsIncludes (sub s : Str) : Bool := s.tails.any (fun t => sub.isPrefixOf t)

/-- JavaScript `s.replace(pat, '')` for a plain-string pattern: remove the
first occurrence of `pat`. -/
def jsReplaceFirst (pat : Str) : Str → Str
  | [] => []
  | c :: rest =>
    if pat.isPrefixOf (c :: rest) then (c :: rest).drop pat.length
    else c :: jsReplaceFirst pat rest

/-- ASCII decimal digit test (the `\d` character class). -/
def isDigitChar (c : Char) : Bool := 48 ≤ c.toNat && c.toNat ≤ 57

/-- JavaScript `parseInt` on a string of decimal digits. -/
def jsParseIntDigits (s : Str) : Nat :=
  s.foldl (fun acc c => 10 * acc + (c.toNat - 48)) 0

/-- JavaScript `n.toString()` for a non-negative number. -/
def natToStr (n : Nat) : Str := Nat.toDigits 10 n

/-- JavaScript `s.padStart(2, '0')`. -/
def jsPadStart2 (s : Str) : Str :=
  if s.length < 2 then List.replicate (2 - s.length) '0' ++ s else s

/-- `n.toString().padStart(2, '0')`, the formatting used for every
time/date field of a ticket number. -/
def jsPad2 (n : Nat) : Str := jsPadStart2 (natToStr n)

/-- The local wall-clock fields read by `generateTicketNumber`
(`getHours`, `getMinutes`, `getSeconds`, `getDate`, `getMonth() + 1`). -/
structure Clock where
  hh : Nat
  mm : Nat
  ss : Nat
  dd : Nat
  mo : Nat
deriving DecidableEq, Repr

/-- The department-letter to ticket-prefix map of `generateTicketNumber`
(`whatsappService.js`). -/
def ticketPrefixMap : List (Char × Str) :=
  [('C', "CLD".toList), ('I', "INF".toList), ('N', "NET".toList),
   ('S', "SFT".toList), ('P', "PRT".toList), ('W', "WRT".toList)]

/-- `generateTicketNumber(issue)` of `whatsappService.js`: the "Other"
sentinel (the canned text starting with `Greetings`) maps to prefix `OTR`,
otherwise the first character of the issue is looked up in the prefix map
(defaulting to `TKT`), and the number is `PREFIX-HHMMSS-DDMM` with each
field zero-padded to two digits. -/
def generateTicketNumber (issue : Str) (clk : Clock) : Str :=
  let pfx :=
    if jsStartsWith "Greetings".toList issue then "OTR".toList
    else ((ticketPrefixMap.lookup (issue.headD ' ')).getD "TKT".toList)
  let timeString := jsPad2 clk.hh ++ jsPad2 clk.mm ++ jsPad2 clk.ss
  let dateString := jsPad2 clk.dd ++ jsPad2 clk.mo
  pfx ++ "-".toList ++ timeString ++ "-".toList ++ dateString

/-- The regular expression `^(CLD|INF|NET|SFT|PRT|WRT|OTR)-\d{6}-\d{4}$`
from the specification, as a decidable matcher. -/
def ticketNumberMatches (s : Str) : Bool :=
  match s with
  | a :: b :: c :: '-' :: d1 :: d2 :: d3 :: d4 :: d5 :: d6 :: '-' :: e1 :: e2 :: e3 :: e4 :: [] =>
    (["CLD".toList, "INF".toList, "NET".toList, "SFT".toList,
      "PRT".toList, "WRT".toList, "OTR".toList].contains [a, b, c])
    && [d1, d2, d3, d4, d5, d6, e1, e2, e3, e4].all isDigitChar
  | _ => false

/-- A stored ticket (`{ticketNumber, issue, status, createdAt,
customerPhone}`); `createdAt` is the creation instant. -/
structure Ticket where
  ticketNumber : Str
  issue : Str
  status : Str
  createdAt : Nat
  customerPhone : Str
deriving DecidableEq, Repr

/-- One step of the `uniqueTickets` map construction of the
`POST /save-ticket` handler (`server.js`): a ticket is added only if its
number is not present yet. -/
def dedupInsert (acc : List Ticket) (t : Ticket) : List Ticket :=
  if acc.any (fun u => u.ticketNumber == t.ticketNumber) then acc else acc ++ [t]

/-- The `uniqueTickets` map of `POST /save-ticket`: scanning the tickets in
order and keeping only the first occurrence of each ticket number
(insertion-ordered `Map` keyed by `ticketNumber`). -/
def dedupTicketsByNumber (l : List Ticket) : List Ticket :=
  l.foldl dedupInsert []

/-- The comparator `(a, b) => new Date(b.createdAt) - new Date(a.createdAt)`
of `POST /save-ticket` (most recent first). -/
def ticketCreatedDesc (a b : Ticket) : Prop := b.createdAt ≤ a.createdAt

instance : DecidableRel ticketCreatedDesc :=
  fun a b => Nat.decLe b.createdAt a.createdAt

/-- `POST /save-ticket` (`server.js`): merge the tickets already on file
with the posted tickets, keeping only the first occurrence of each ticket
number, and store them sorted by creation date descending (a stable
comparator sort, like JavaScript `Array.sort`). -/
def saveTicketEndpoint (fileTickets posted : List Ticket) : List Ticket :=
  (dedupTicketsByNumber (fileTickets ++ posted)).insertionSort ticketCreatedDesc

/-- `saveTicket(ticket)` of `whatsappService.js`: fetch the stored tickets;
if one already has the same `ticketNumber`, report success without writing;
otherwise post the fetched list extended with the new ticket to
`/save-ticket`.  Returns the success flag and the resulting store. -/
def saveTicket (store : List Ticket) (t : Ticket) : Bool × List Ticket :=
  if store.any (fun e => e.ticketNumber == t.ticketNumber) then (true, store)
  else (true, saveTicketEndpoint store (store ++ [t]))

/-- The content-deduplication map `recentlyProcessedMessages`: normalized
content paired with the instant it was last processed, in insertion order. -/
abbrev ContentMap := List (Str × Nat)

/-- JavaScript `Map.prototype.set`: replace the value at an existing key in
place, otherwise append the binding. -/
def mapSet (k : Str) (v : Nat) : ContentMap → ContentMap
  | [] => [(k, v)]
  | (k', v') :: rest =>
    if k' == k then (k', v) :: rest else (k', v') :: mapSet k v rest

/-- The suppression test of `handleUserInput` (`whatsappService.js`): the
message is skipped when its normalized content was recorded less than
10 seconds (10000 ms) ago. -/
def contentSuppressed (m : ContentMap) (content : Str) (now : Nat) : Bool :=
  match m.lookup content with
  | some ts => decide (now - ts < 10000)
  | none => false

/-- The content half of the Deduplicator contract
(`shouldProcessByContent(normalizedContent, now)` in the specification;
the check at the top of `handleUserInput` together with the unconditional
recording that follows it): suppressed content leaves the map untouched,
otherwise the content is recorded at `now`. -/
def shouldProcessByContent (m : ContentMap) (content : Str) (now : Nat) :
    Bool × ContentMap :=
  if contentSuppressed m content now then (false, m)
  else (true, mapSet content now m)

/-- The sweep at the middle of `handleUserInput`: entries recorded more
than 10 seconds ago are deleted from the content map. -/
def sweepContentMap (now : Nat) (m : ContentMap) : ContentMap :=
  m.filter (fun e => !(decide (10000 < now - e.2)))

/-- The identifier half of the Deduplicator
(`processedMessageIds` in `checkForNewMessages`): a seen identifier is
skipped, an unseen one is recorded (JavaScript `Set`, insertion order). -/
def shouldProcessById (seen : List Str) (msgId : Str) : Bool × List Str :=
  if seen.contains msgId then (false, seen) else (true, seen ++ [msgId])

/-- The eviction step of `checkForNewMessages`:
`Array.from(set).slice(-1000)` once the set holds more than 1000
identifiers, i.e. only the most recently added 1000 are retained. -/
def evictProcessedIds (seen : List Str) : List Str :=
  if 1000 < seen.length then seen.drop (seen.length - 1000) else seen

/-- A stored incoming message (`messageStorage.js`), with its sender. -/
structure IncomingMsg where
  msgId : Str
  fromPhone : Str
  content : Str
  timestamp : Nat
deriving DecidableEq, Repr

/-- A stored outgoing message (`messageStorage.js`), with its recipient. -/
structure OutgoingMsg where
  msgId : Str
  toPhone : Str
  content : Str
  timestamp : Nat
deriving DecidableEq, Repr

/-- A message as returned by `GET /messages`: both streams are given the
uniform `from` attribute (`server.js` sets `from: msg.to` on outgoing
entries). -/
structure WireMsg where
  msgId : Str
  fromPhone : Str
  content : Str
  timestamp : Nat
deriving DecidableEq, Repr

/-- The ascending-timestamp comparator of `GET /messages`
(`(a, b) => new Date(a.timestamp) - new Date(b.timestamp)`). -/
def wireMsgLe (a b : WireMsg) : Prop := a.timestamp ≤ b.timestamp

instance : DecidableRel wireMsgLe :=
  fun a b => Nat.decLe a.timestamp b.timestamp

instance : IsTotal WireMsg wireMsgLe :=
  ⟨fun a b => Nat.le_total a.timestamp b.timestamp⟩

instance : IsTrans WireMsg wireMsgLe :=
  ⟨fun _ _ _ h h' => Nat.le_trans h h'⟩

/-- `getMessagesSince(timestamp)` of `messageStorage.js`: both streams
filtered to messages strictly newer than the watermark. -/
def getMessagesSince (inc : List IncomingMsg) (out : List OutgoingMsg)
    (since : Nat) :
    List IncomingMsg × List OutgoingMsg :=
  (inc.filter (fun m => decide (since < m.timestamp)),
   out.filter (fun m => decide (since < m.timestamp)))

/-- `GET /messages` (`server.js`): filter both streams past the watermark,
tag outgoing entries with their recipient as the `from` field, and sort the
union by timestamp ascending (a stable comparator sort, like JavaScript
`Array.sort`). -/
def combinedMessagesSince (inc : List IncomingMsg) (out : List OutgoingMsg)
    (since : Nat) : List WireMsg :=
  let filtered := getMessagesSince inc out since
  ((filtered.1.map (fun m => WireMsg.mk m.msgId m.fromPhone m.content m.timestamp))
    ++ (filtered.2.map (fun m => WireMsg.mk m.msgId m.toPhone m.content m.timestamp))).insertionSort wireMsgLe

/-- The watermark update of `checkForNewMessages` (`whatsappService.js`):
`lastMessageTimestamp` becomes the timestamp of the last returned message,
and is left unchanged when the poll returned nothing. -/
def advanceWatermark (wm : Nat) (msgs : List WireMsg) : Nat :=
  match msgs.getLast? with
  | some m => m.timestamp
  | none => wm

/-- The shape of the response catalog `sprout_commands.json` as consumed by
`whatsappService.js`: greeting and farewell tables, support keywords, the
canned support greeting, the root menu lines, and for each department name
an object mapping its two-digit number to its issue list (key insertion
order preserved, as for JavaScript objects). -/
structure Responses where
  greetings : List (Str × Str)
  farewells : List (Str × Str)
  support_keywords : List Str
  support_greeting : Str
  sproutMenu : List Str
  deptObjects : List (Str × List (Str × List Str))
deriving DecidableEq, Repr

/-- The `greetingStarters` list of `WhatsAppService`. -/
def greetingStarters : List Str :=
  ["hi", "hello", "greetings", "how do you do", "good morning",
   "good evening", "good afternoon", "good day"].map String.toList

/-- `startsWithGreeting` of `handleUserInput`. -/
def startsWithGreetingB (lowerMessage : Str) : Bool :=
  greetingStarters.any (fun g => g.isPrefixOf lowerMessage)

/-- `containsSupportKeyword` of `handleUserInput`. -/
def containsSupportKeywordB (r : Responses) (lowerMessage : Str) : Bool :=
  r.support_keywords.any (fun k => jsIncludes (jsToLower k) lowerMessage)

/-- The greeting-table lookup of `handleUserInput` case 2: the first entry
whose key equals the normalized message case-insensitively. -/
def findGreetingReply : List (Str × Str) → Str → Option Str
  | [], _ => none
  | (g, resp) :: rest, lowerMessage =>
    if lowerMessage == jsToLower g then some resp
    else findGreetingReply rest lowerMessage

/-- The farewell scan of `handleUserInput`: the first farewell keyword
contained in the normalized message. -/
def findFarewellReply : List (Str × Str) → Str → Option Str
  | [], _ => none
  | (f, resp) :: rest, lowerMessage =>
    if jsIncludes (jsToLower f) lowerMessage then some resp
    else findFarewellReply rest lowerMessage

/-- The department-number map of `handleUserInput`. -/
def departmentsByNumber : List (Str × Str) :=
  [("01".toList, "Cloud Department".toList),
   ("02".toList, "Infrastructure Department".toList),
   ("03".toList, "Network and Security Department".toList),
   ("04".toList, "Software Department".toList),
   ("05".toList, "Printing Department".toList),
   ("06".toList, "Warranty Department".toList),
   ("07".toList, "Other".toList)]

/-- The letter-keyed department map of the issue-code branch of
`handleUserInput`. -/
def departmentsByLetter : List (Char × Str) :=
  [('C', "Cloud Department".toList),
   ('I', "Infrastructure Department".toList),
   ('N', "Network and Security Department".toList),
   ('S', "Software Department".toList),
   ('P', "Printing Department".toList),
   ('W', "Warranty Department".toList)]

/-- The regex `^(0[1-7])$` applied to the stripped command. -/
def deptNumberMatch (command : Str) : Option Str :=
  match command with
  | ['0', c] =>
    if 49 ≤ c.toNat && c.toNat ≤ 55 then some ['0', c] else none
  | _ => none

/-- The regex `^([cinspw])(\d+)$/i` applied to the stripped command,
returning the captured letter and digit string. -/
def issueCodeMatch (command : Str) : Option (Char × Str) :=
  match command with
  | [] => none
  | l :: rest =>
    if ['c', 'i', 'n', 's', 'p', 'w', 'C', 'I', 'N', 'S', 'P', 'W'].contains l
        && !rest.isEmpty && rest.all isDigitChar
    then some (l, rest) else none

/-- The issue resolution of the issue-code branch of `handleUserInput`:
the issue number must parse to `1..10`, the letter selects the department,
and the issue list (the value of the department object's first key) is
scanned for an entry starting with the upper-cased code followed by the
captured digit string. -/
def resolveIssue (r : Responses) (command : Str) : Option Str :=
  match issueCodeMatch command with
  | none => none
  | some (l, digits) =>
    let num := jsParseIntDigits digits
    if 1 ≤ num && num ≤ 10 then
      match departmentsByLetter.lookup l.toUpper with
      | none => none
      | some dept =>
        match r.deptObjects.lookup dept with
        | none => none
        | some deptResponses =>
          (deptResponses.headD ([], [])).2.find?
            (fun i => jsStartsWith (l.toUpper :: digits) i)
    else none

/-- The default recipient phone number of `WhatsAppService`. -/
def recipientPhone : Str := "264814067806".toList

/-- The interpreter state: the pending issue `lastSelectedIssue`, the
content-deduplication map `recentlyProcessedMessages`, and the ticket
store reachable through `saveTicket`. -/
structure InterpState where
  lastSelectedIssue : Option Str
  recentlyProcessedMessages : ContentMap
  tickets : List Ticket
deriving DecidableEq, Repr

/-- One invocation's observable outcome: the returned response (if any),
the messages pushed through `sendMessage` inside the invocation, the
number of `sendImage` calls, and the updated state. -/
structure InterpResult where
  response : Option Str
  sent : List Str
  imagesSent : Nat
  state : InterpState
deriving DecidableEq, Repr

/-- The fixed help/usage text of `handleUserInput`. -/
def helpMessage : Str :=
  ("Available commands:\n#sprout - Show department menu\n#sprout [01-07] - Show department issues\n#sprout [C1-C10, I1-I10, P1-P10, etc.] - Select specific issue").toList

/-- The generic nudge of `handleUserInput` case 2 for partial greetings. -/
def defaultGreetingReply : Str :=
  "Hi there! Type #sprout to see our support menu.".toList

/-- The confirmation prompt appended after a selected issue. -/
def confirmPrompt : Str :=
  "\n\nWould you like to create a ticket for this issue? Reply with \"yes\" to proceed.".toList

/-- The `Selected issue: …` response of the issue-code branch. -/
def selectedIssueMessage (issue : Str) : Str :=
  "Selected issue:\n".toList ++ issue ++ confirmPrompt

/-- The formatted ticket confirmation of the `yes` branch. -/
def ticketConfirmationMessage (ticketNumber displayIssue : Str) : Str :=
  "Ticket created successfully!\n\nTicket Details:\nTicket Number: ".toList
    ++ ticketNumber
    ++ "\nIssue: ".toList
    ++ displayIssue
    ++ "\nStatus: Open\n\nWe will contact you shortly regarding this ticket.\n\nType #sprout to return to the main menu.".toList

/-- `issueText` of the `yes` branch of `handleUserInput`: the "Other"
sentinel becomes `None Specified`, any other pending issue is kept. -/
def issueTextOf (issue : Str) : Str :=
  if jsStartsWith "Greetings".toList issue then "None Specified".toList else issue

/-- `displayIssue` of the `yes` branch of `handleUserInput`. -/
def displayIssueOf (issue : Str) : Str :=
  if issueTextOf issue == "None Specified".toList then "Other - None Specified".toList
  else issueTextOf issue

/-- The ticket object persisted by the `yes` branch of `handleUserInput`. -/
def newTicketOf (issue : Str) (now : Nat) (clk : Clock) : Ticket :=
  ⟨generateTicketNumber issue clk, issueTextOf issue, "Open".toList, now,
   recipientPhone⟩

/-- `⟨some helpMessage⟩` with an unchanged state: the closing fallback of
the `#sprout` command handling. -/
def helpResult (st : InterpState) : InterpResult :=
  ⟨some helpMessage, [], 0, st⟩

/-- The issue-code branch of `handleUserInput` (including its fall-through
to the help message when the code resolves to nothing). -/
def issueCodeBranch (r : Responses) (st : InterpState) (command : Str) :
    InterpResult :=
  match resolveIssue r command with
  | some issue =>
    ⟨some (selectedIssueMessage issue), [], 0,
     { st with lastSelectedIssue := some issue }⟩
  | none => helpResult st

/-- The department-number branch of `handleUserInput`: `07` starts the
"Other" flow, `01`–`06` answer with the joined issue list and clear the
pending issue; a missing catalog entry falls through to the issue-code
branch (and from there to the help message). -/
def deptNumberBranch (r : Responses) (st : InterpState) (command : Str) :
    InterpResult :=
  match deptNumberMatch command with
  | none => issueCodeBranch r st command
  | some deptNum =>
    match departmentsByNumber.lookup deptNum with
    | none => issueCodeBranch r st command
    | some dept =>
      match (r.deptObjects.lookup dept).bind (fun obj => obj.lookup deptNum) with
      | none => issueCodeBranch r st command
      | some issues =>
        if deptNum == "07".toList then
          let otherMessage := issues.headD []
          ⟨some (otherMessage ++ confirmPrompt), [], 0,
           { st with lastSelectedIssue := some otherMessage }⟩
        else
          ⟨some (List.intercalate ['\n'] issues), [], 0,
           { st with lastSelectedIssue := none }⟩

/-- `handleUserInput(message)` of `whatsappService.js`, as a pure
transition function of the interpreter state.  `now` is `Date.now()` at
the invocation and `clk` the local wall clock used for ticket numbers.
The function mirrors the source order: normalization, the recent-content
suppression check, greeting/support-keyword flags, recording of the
content, the three greeting/support cases, the sweep of old content
entries, the `yes` confirmation, farewells, the ignore rule for free text,
and the `#sprout` command grammar. -/
def handleUserInput (r : Responses) (st : InterpState) (message : Str)
    (now : Nat) (clk : Clock) : InterpResult :=
  let lowerMessage := jsTrim (jsToLower message)
  if contentSuppressed st.recentlyProcessedMessages lowerMessage now then
    ⟨none, [], 0, st⟩
  else
    let startsWithGreeting := startsWithGreetingB lowerMessage
    let containsSupportKeyword := containsSupportKeywordB r lowerMessage
    let st1 : InterpState :=
      { st with recentlyProcessedMessages :=
          mapSet lowerMessage now st.recentlyProcessedMessages }
    if startsWithGreeting && containsSupportKeyword then
      ⟨none, [r.support_greeting], 1, st1⟩
    else if startsWithGreeting then
      match findGreetingReply r.greetings lowerMessage with
      | some resp => ⟨none, [resp], 1, st1⟩
      | none => ⟨none, [defaultGreetingReply], 1, st1⟩
    else if containsSupportKeyword && !(jsStartsWith "#sprout".toList lowerMessage) then
      ⟨some r.support_greeting, [], 0, st1⟩
    else
      let st2 : InterpState :=
        { st1 with recentlyProcessedMessages :=
            sweepContentMap now st1.recentlyProcessedMessages }
      if lowerMessage == "yes".toList && st2.lastSelectedIssue.isSome then
        let issue := st2.lastSelectedIssue.getD []
        let ticketNumber := generateTicketNumber issue clk
        let newStore := (saveTicket st2.tickets (newTicketOf issue now clk)).2
        ⟨some (ticketConfirmationMessage ticketNumber (displayIssueOf issue)), [], 0,
         { st2 with lastSelectedIssue := none, tickets := newStore }⟩
      else
        match findFarewellReply r.farewells lowerMessage with
        | some resp => ⟨some resp, [], 0, st2⟩
        | none =>
          if !(jsStartsWith "#sprout".toList lowerMessage) then
            if containsSupportKeyword then ⟨some r.support_greeting, [], 0, st2⟩
            else ⟨none, [], 0, st2⟩
          else
            let command := jsTrim (jsReplaceFirst "#sprout".toList lowerMessage)
            if command == [] then
              ⟨some (List.intercalate ['\n'] r.sproutMenu), [], 0,
               { st2 with lastSelectedIssue := none }⟩
            else
              deptNumberBranch r st2 command

/-- Modelled from the spec: the catalog file `sprout_commands.json` is not
among the sources, so a well-formed sample catalog is reconstructed from
the specification's data model — departments `01`–`06` carry issues coded
by their letter and a number in `1..10`, department `07`/Other has exactly
one canned text (the `Greetings…` sentinel recognized by
`generateTicketNumber`), plus greeting and farewell tables, support
keywords and the canned support greeting. -/
def sampleResponses : Responses where
  greetings :=
    [("Hi".toList, "Hello! How can we help you today?".toList),
     ("Hello".toList, "Hi! Type #sprout to see our support menu.".toList),
     ("Good morning".toList, "Good morning! Type #sprout to see our support menu.".toList)]
  farewells :=
    [("bye".toList, "Goodbye! Have a great day.".toList),
     ("thank you".toList, "You are welcome!".toList)]
  support_keywords :=
    ["support".toList, "help".toList, "issue".toList, "problem".toList]
  support_greeting :=
    "Welcome to Sprout support! Type #sprout to see our support menu.".toList
  sproutMenu :=
    ["Welcome to the Sprout support menu:".toList,
     "01 - Cloud Department".toList,
     "02 - Infrastructure Department".toList,
     "03 - Network and Security Department".toList,
     "04 - Software Department".toList,
     "05 - Printing Department".toList,
     "06 - Warranty Department".toList,
     "07 - Other".toList]
  deptObjects :=
    [("Cloud Department".toList,
      [("01".toList,
        ["C1 - Cloud storage is full".toList,
         "C2 - Cannot access cloud account".toList,
         "C10 - Cloud backup failed".toList])]),
     ("Infrastructure Department".toList,
      [("02".toList,
        ["I1 - Server room temperature alert".toList,
         "I3 - Virtual machine will not start".toList])]),
     ("Network and Security Department".toList,
      [("03".toList,
        ["N1 - Network connection drops".toList,
         "N2 - VPN cannot connect".toList])]),
     ("Software Department".toList,
      [("04".toList,
        ["S1 - Application crashes on start".toList,
         "S2 - License key rejected".toList])]),
     ("Printing Department".toList,
      [("05".toList,
        ["P1 - Printer does not print".toList,
         "P2 - Print jobs stuck in queue".toList])]),
     ("Warranty Department".toList,
      [("06".toList,
        ["W1 - Device repair status".toList,
         "W2 - Warranty claim form request".toList])]),
     ("Other".toList,
      [("07".toList,
        ["Greetings! Please describe the matter you are facing and our team will assist you.".toList])])]

/-- C5: the content deduplicator returns `false` and leaves the map (and in
particular the recorded timestamp) unchanged when the same normalized
content was recorded less than 10 seconds earlier; otherwise it records the
content at the current time and returns `true`.  In particular, after
recording `"hi"` at `t`, a check at `t + 5s` is suppressed without
refreshing the timestamp, and a check at `t + 11s` passes. -/
theorem claim_C5 (m : ContentMap) (content : Str) (now ts : Nat) :
    (m.lookup content = some ts → now - ts < 10000 →
      shouldProcessByContent m content now = (false, m))
    ∧ (m.lookup content = some ts → ¬(now - ts < 10000) →
      shouldProcessByContent m content now = (true, mapSet content now m))
    ∧ (m.lookup content = none →
      shouldProcessByContent m content now = (true, mapSet content now m))
    ∧ (∀ t : Nat,
        shouldProcessByContent [] ("hi".toList) t = (true, [("hi".toList, t)])
        ∧ shouldProcessByContent [("hi".toList, t)] ("hi".toList) (t + 5000)
            = (false, [("hi".toList, t)])
        ∧ shouldProcessByContent [("hi".toList, t)] ("hi".toList) (t + 11000)
            = (true, [("hi".toList, t + 11000)])) := by
  refine ⟨?_, ?_, ?_, ?_⟩
  · intro h hlt
    simp [shouldProcessByContent, contentSuppressed, h, hlt]
  · intro h hge
    simp [shouldProcessByContent, contentSuppressed, h, hge]
  · intro h
    simp [shouldProcessByContent, contentSuppressed, h]
  · intro t
    refine ⟨?_, ?_, ?_⟩
    · simp [shouldProcessByContent, contentSuppressed, mapSet]
    · simp [shouldProcessByContent, contentSuppressed, List.lookup,
        Nat.add_sub_cancel_left]
    · simp [shouldProcessByContent, contentSuppressed, List.lookup, mapSet,
        Nat.add_sub_cancel_left]

/-- Witness for C5: the contract evaluated at concrete inputs. -/
theorem claim_C5_witness :
    (([(("a".toList : Str), 5)] : ContentMap).lookup ("a".toList) = some 5 ∧ 7 - 5 < 10000
      ∧ shouldProcessByContent [(("a".toList : Str), 5)] ("a".toList) 7
          = (false, [(("a".toList : Str), 5)]))
    ∧ shouldProcessByContent [] ("hi".toList) 100 = (true, [("hi".toList, 100)])
    ∧ shouldProcessByContent [("hi".toList, 100)] ("hi".toList) 5100
        = (false, [("hi".toList, 100)])
    ∧ shouldProcessByContent [("hi".toList, 100)] ("hi".toList) 11100
        = (true, [("hi".toList, 11100)]) :=
  ⟨⟨by decide, by decide,
    (claim_C5 [(("a".toList : Str), 5)] ("a".toList) 7 5).1 (by decide) (by decide)⟩,
   ((claim_C5 [] ("hi".toList) 0 0).2.2.2 100).1,
   ((claim_C5 [] ("hi".toList) 0 0).2.2.2 100).2.1,
   ((claim_C5 [] ("hi".toList) 0 0).2.2.2 100).2.2⟩

/-- C6: the identifier deduplicator processes each id at most once (first
check `true` and records it, any later check of the same id `false` with no
new record), and the eviction step keeps only the most recently added 1000
identifiers, so after 1001 distinct insertions the oldest is no longer
recognized. -/
theorem claim_C6 (seen : List Str) (msgId' : Str) :
    (seen.contains msgId' = false →
      shouldProcessById seen msgId' = (true, seen ++ [msgId']))
    ∧ (seen.contains msgId' = true →
      shouldProcessById seen msgId' = (false, seen))
    ∧ (shouldProcessById (shouldProcessById seen msgId').2 msgId').1 = false
    ∧ (∀ l : List Str, 1000 < l.length →
        evictProcessedIds l = l.drop (l.length - 1000)
        ∧ (evictProcessedIds l).length = 1000)
    ∧ (∀ (x : Str) (xs : List Str), (x :: xs).Nodup → (x :: xs).length = 1001 →
        evictProcessedIds (x :: xs) = xs ∧ x ∉ evictProcessedIds (x :: xs)) := by
  refine ⟨?_, ?_, ?_, ?_, ?_⟩
  · intro h
    have h' : msgId' ∉ seen := by simpa using h
    simp [shouldProcessById, h']
  · intro h
    have h' : msgId' ∈ seen := by simpa using h
    simp [shouldProcessById, h']
  · by_cases h : msgId' ∈ seen
    · simp [shouldProcessById, h]
    · simp [shouldProcessById, h]
  · intro l hl
    refine ⟨by simp [evictProcessedIds, hl], ?_⟩
    simp [evictProcessedIds, hl]
    omega
  · intro x xs hnodup hlen
    have hxs : xs.length = 1000 := by simpa using hlen
    have hdrop : evictProcessedIds (x :: xs) = xs := by
      unfold evictProcessedIds
      rw [List.length_cons, hxs]
      norm_num
    refine ⟨hdrop, ?_⟩
    rw [hdrop]
    exact (List.nodup_cons.mp hnodup).1

/-- 1001 pairwise-distinct message identifiers, used to exercise the
eviction policy. -/
def manyIds : List Str := (List.range 1001).map (fun n => List.replicate n 'a')

/-- The last 1000 of `manyIds`. -/
def manyTail : List Str := (List.range 1000).map (fun n => List.replicate (n + 1) 'a')

theorem manyIds_nodup : manyIds.Nodup :=
  List.Nodup.map (fun a b h => by simpa using congrArg List.length h)
    (List.nodup_range 1001)

theorem manyIds_eq : manyIds = ([] : Str) :: manyTail := by
  unfold manyIds manyTail
  rw [List.range_succ_eq_map]
  simp [List.map_map, Function.comp]

theorem manyTail_cons_nodup : (([] : Str) :: manyTail).Nodup :=
  manyIds_eq ▸ manyIds_nodup

theorem manyTail_cons_length : (([] : Str) :: manyTail).length = 1001 := by
  simp [manyTail]

/-- Witness for C6: the deduplicator contract at concrete identifiers, and
eviction after 1001 distinct insertions forgetting the oldest. -/
theorem claim_C6_witness :
    shouldProcessById [] ("m1".toList) = (true, [("m1".toList : Str)])
    ∧ shouldProcessById [("m1".toList : Str)] ("m1".toList)
        = (false, [("m1".toList : Str)])
    ∧ (shouldProcessById (shouldProcessById [] ("m1".toList)).2 ("m1".toList)).1 = false
    ∧ evictProcessedIds (([] : Str) :: manyTail) = manyTail
    ∧ ([] : Str) ∉ evictProcessedIds (([] : Str) :: manyTail) :=
  ⟨(claim_C6 [] ("m1".toList)).1 (by decide),
   (claim_C6 [("m1".toList : Str)] ("m1".toList)).2.1 (by decide),
   (claim_C6 [] ("m1".toList)).2.2.1,
   ((claim_C6 [] []).2.2.2.2 [] manyTail manyTail_cons_nodup manyTail_cons_length).1,
   ((claim_C6 [] []).2.2.2.2 [] manyTail manyTail_cons_nodup manyTail_cons_length).2⟩

/-- C7: `GET /messages` returns the union of the two streams filtered to
timestamps strictly greater than the watermark, with outgoing entries
tagged with their recipient as the shared `from` field, sorted by timestamp
ascending; the client watermark update takes the last element's timestamp
on a non-empty result and leaves the watermark unchanged on an empty one,
so repeated polling with no new data is idempotent. -/
theorem claim_C7 (inc : List IncomingMsg) (out : List OutgoingMsg) (wm : Nat) :
    (combinedMessagesSince inc out wm).Perm
        (((inc.filter (fun m => decide (wm < m.timestamp))).map
            (fun m => WireMsg.mk m.msgId m.fromPhone m.content m.timestamp))
          ++ ((out.filter (fun m => decide (wm < m.timestamp))).map
            (fun m => WireMsg.mk m.msgId m.toPhone m.content m.timestamp)))
    ∧ (combinedMessagesSince inc out wm).Sorted wireMsgLe
    ∧ (∀ m ∈ combinedMessagesSince inc out wm, wm < m.timestamp)
    ∧ (∀ (msgs : List WireMsg) (last : WireMsg), msgs.getLast? = some last →
        advanceWatermark wm msgs = last.timestamp)
    ∧ (combinedMessagesSince inc out wm = [] →
        advanceWatermark wm (combinedMessagesSince inc out wm) = wm
        ∧ combinedMessagesSince inc out
            (advanceWatermark wm (combinedMessagesSince inc out wm)) = []) := by
  refine ⟨?_, ?_, ?_, ?_, ?_⟩
  · exact List.perm_insertionSort wireMsgLe _
  · exact List.sorted_insertionSort wireMsgLe _
  · intro m hm
    have hm' := (List.perm_insertionSort wireMsgLe _).mem_iff.mp hm
    rcases List.mem_append.mp hm' with h | h
    · rcases List.mem_map.mp h with ⟨a, ha, rfl⟩
      simpa using List.of_mem_filter ha
    · rcases List.mem_map.mp h with ⟨a, ha, rfl⟩
      simpa using List.of_mem_filter ha
  · intro msgs last h
    unfold advanceWatermark
    rw [h]
  · intro h
    have hadv : advanceWatermark wm (combinedMessagesSince inc out wm) = wm := by
      unfold advanceWatermark
      rw [h]
      rfl
    exact ⟨hadv, by rw [hadv]; exact h⟩

/-- The incoming stream of the specification's Sync Cursor example
(timestamps 1 and 3). -/
def exampleIncoming : List IncomingMsg :=
  [⟨"a".toList, "u".toList, "m1".toList, 1⟩,
   ⟨"b".toList, "u".toList, "m3".toList, 3⟩]

/-- The outgoing stream of the specification's Sync Cursor example
(timestamp 2). -/
def exampleOutgoing : List OutgoingMsg :=
  [⟨"c".toList, "u".toList, "m2".toList, 2⟩]

/-- Witness for C7: the specification's example — messages ordered
`t=1,2,3`, the watermark advances to `3`, and polling again at `3` returns
nothing and keeps the watermark. -/
theorem claim_C7_witness :
    combinedMessagesSince exampleIncoming exampleOutgoing 0
      = [⟨"a".toList, "u".toList, "m1".toList, 1⟩,
         ⟨"c".toList, "u".toList, "m2".toList, 2⟩,
         ⟨"b".toList, "u".toList, "m3".toList, 3⟩]
    ∧ (combinedMessagesSince exampleIncoming exampleOutgoing 0).Sorted wireMsgLe
    ∧ advanceWatermark 0 (combinedMessagesSince exampleIncoming exampleOutgoing 0) = 3
    ∧ combinedMessagesSince exampleIncoming exampleOutgoing 3 = []
    ∧ advanceWatermark 3 (combinedMessagesSince exampleIncoming exampleOutgoing 3) = 3 :=
  ⟨by decide,
   (claim_C7 exampleIncoming exampleOutgoing 0).2.1,
   (claim_C7 exampleIncoming exampleOutgoing 0).2.2.2.1
     (combinedMessagesSince exampleIncoming exampleOutgoing 0)
     ⟨"b".toList, "u".toList, "m3".toList, 3⟩ (by decide),
   by decide,
   ((claim_C7 exampleIncoming exampleOutgoing 3).2.2.2.2 (by decide)).1⟩

theorem mem_foldl_dedupInsert_of_mem {u : Ticket} {acc : List Ticket}
    (l : List Ticket) (h : u ∈ acc) : u ∈ l.foldl dedupInsert acc := by
  induction l generalizing acc with
  | nil => exact h
  | cons x xs ih =>
    apply ih
    unfold dedupInsert
    split
    · exact h
    · exact List.mem_append_left _ h

theorem foldl_dedupInsert_mem_of {u : Ticket} {l acc : List Ticket}
    (h : u ∈ l.foldl dedupInsert acc) : u ∈ acc ∨ u ∈ l := by
  induction l generalizing acc with
  | nil => exact Or.inl h
  | cons x xs ih =>
    rw [List.foldl_cons] at h
    rcases ih h with h' | h'
    · unfold dedupInsert at h'
      split at h'
      · exact Or.inl h'
      · rcases List.mem_append.mp h' with h'' | h''
        · exact Or.inl h''
        · have hx := List.mem_singleton.mp h''
          exact Or.inr (hx ▸ List.mem_cons_self x xs)
    · exact Or.inr (List.mem_cons_of_mem _ h')

theorem foldl_dedupInsert_nodup (l acc : List Ticket)
    (h : (acc.map Ticket.ticketNumber).Nodup) :
    ((l.foldl dedupInsert acc).map Ticket.ticketNumber).Nodup := by
  induction l generalizing acc with
  | nil => exact h
  | cons x xs ih =>
    apply ih
    unfold dedupInsert
    split
    · exact h
    · rename_i hany
      have hnot : x.ticketNumber ∉ acc.map Ticket.ticketNumber := by
        intro hmem
        rcases List.mem_map.mp hmem with ⟨u, hu, hnum⟩
        exact hany (List.any_eq_true.mpr ⟨u, hu, beq_iff_eq.mpr hnum⟩)
      rw [List.map_append]
      apply List.nodup_append.mpr
      refine ⟨h, by simp, ?_⟩
      intro a ha hb
      simp only [List.map_cons, List.map_nil, List.mem_singleton] at hb
      subst hb
      exact hnot ha

theorem foldl_dedupInsert_covers {v : Ticket} {l : List Ticket}
    (acc : List Ticket) (h : v ∈ l) :
    ∃ u ∈ l.foldl dedupInsert acc, u.ticketNumber = v.ticketNumber := by
  induction l generalizing acc with
  | nil => cases h
  | cons x xs ih =>
    rcases List.mem_cons.mp h with rfl | h'
    · by_cases hany : acc.any (fun u => u.ticketNumber == v.ticketNumber) = true
      · rcases List.any_eq_true.mp hany with ⟨u, hu, hnum⟩
        exact ⟨u, mem_foldl_dedupInsert_of_mem xs (by simp [dedupInsert, hany, hu]),
          beq_iff_eq.mp hnum⟩
      · refine ⟨v, mem_foldl_dedupInsert_of_mem xs ?_, rfl⟩
        simp [dedupInsert, hany]
    · exact ih _ h'

theorem foldl_dedupInsert_eq_of_nodup {l : List Ticket} (acc : List Ticket)
    (h : (((acc ++ l).map Ticket.ticketNumber)).Nodup) :
    l.foldl dedupInsert acc = acc ++ l := by
  induction l generalizing acc with
  | nil => simp
  | cons x xs ih =>
    have hx : x.ticketNumber ∉ acc.map Ticket.ticketNumber := by
      intro hmem
      have := (List.nodup_append.mp (by simpa using h)).2.2
      exact this hmem (by simp)
    have hstep : dedupInsert acc x = acc ++ [x] := by
      unfold dedupInsert
      split
      · rename_i hany
        rcases List.any_eq_true.mp hany with ⟨u, hu, hnum⟩
        exact absurd (List.mem_map.mpr ⟨u, hu, beq_iff_eq.mp hnum⟩) hx
      · rfl
    have h' : (((acc ++ [x]) ++ xs).map Ticket.ticketNumber).Nodup := by
      simpa [List.append_assoc] using h
    simp only [List.foldl_cons, hstep]
    rw [ih _ h']
    simp

theorem foldl_dedupInsert_eq_of_covered {l acc : List Ticket}
    (h : ∀ x ∈ l, ∃ u ∈ acc, u.ticketNumber = x.ticketNumber) :
    l.foldl dedupInsert acc = acc := by
  induction l with
  | nil => rfl
  | cons x xs ih =>
    have hstep : dedupInsert acc x = acc := by
      unfold dedupInsert
      split
      · rfl
      · rename_i hany
        rcases h x (by simp) with ⟨u, hu, hnum⟩
        exact (hany (List.any_eq_true.mpr ⟨u, hu, beq_iff_eq.mpr hnum⟩)).elim
    simp only [List.foldl_cons, hstep]
    exact ih (fun y hy => h y (List.mem_cons_of_mem _ hy))

/-- C4: persisting a duplicate ticket number is treated as success without
mutation (`saveTicket` returns success and the store is untouched), and the
server-side `/save-ticket` merge keeps exactly one ticket per number —
every stored ticket comes from the input, every input number is
represented, and it is the first occurrence of each number that is kept. -/
theorem claim_C4 (store : List Ticket) (t : Ticket)
    (fileTickets posted : List Ticket) :
    (store.any (fun e => e.ticketNumber == t.ticketNumber) = true →
      saveTicket store t = (true, store))
    ∧ ((saveTicketEndpoint fileTickets posted).map Ticket.ticketNumber).Nodup
    ∧ (∀ u ∈ saveTicketEndpoint fileTickets posted, u ∈ fileTickets ++ posted)
    ∧ (∀ v ∈ fileTickets ++ posted,
        ∃ u ∈ saveTicketEndpoint fileTickets posted,
          u.ticketNumber = v.ticketNumber)
    ∧ (∀ (pre suf : List Ticket) (u : Ticket),
        fileTickets ++ posted = pre ++ u :: suf →
        (∀ v ∈ pre, v.ticketNumber ≠ u.ticketNumber) →
        u ∈ saveTicketEndpoint fileTickets posted) := by
  have hperm : (saveTicketEndpoint fileTickets posted).Perm
      (dedupTicketsByNumber (fileTickets ++ posted)) :=
    List.perm_insertionSort ticketCreatedDesc _
  refine ⟨?_, ?_, ?_, ?_, ?_⟩
  · intro h
    simp [saveTicket, h]
  · have := foldl_dedupInsert_nodup (fileTickets ++ posted) [] (by simp)
    exact (hperm.map Ticket.ticketNumber).nodup_iff.mpr this
  · intro u hu
    have hu' := hperm.mem_iff.mp hu
    rcases foldl_dedupInsert_mem_of hu' with h | h
    · cases h
    · exact h
  · intro v hv
    rcases foldl_dedupInsert_covers [] hv with ⟨u, hu, hnum⟩
    exact ⟨u, hperm.mem_iff.mpr hu, hnum⟩
  · intro pre suf u hsplit hfirst
    apply hperm.mem_iff.mpr
    unfold dedupTicketsByNumber
    rw [hsplit, List.foldl_append, List.foldl_cons]
    have hpre : ∀ w ∈ pre.foldl dedupInsert [], w.ticketNumber ≠ u.ticketNumber := by
      intro w hw
      rcases foldl_dedupInsert_mem_of hw with h | h
      · cases h
      · exact hfirst w h
    have hstep : dedupInsert (pre.foldl dedupInsert []) u
        = pre.foldl dedupInsert [] ++ [u] := by
      unfold dedupInsert
      split
      · rename_i hany
        rcases List.any_eq_true.mp hany with ⟨w, hw, hnum⟩
        exact absurd (beq_iff_eq.mp hnum) (hpre w hw)
      · rfl
    rw [hstep]
    exact mem_foldl_dedupInsert_of_mem suf (by simp)

/-- Witness for C4: a duplicate insert at a concrete store, and the
first-occurrence rule at a concrete merge. -/
theorem claim_C4_witness :
    ((([⟨"CLD-1".toList, "i1".toList, "Open".toList, 5, "p".toList⟩] : List Ticket).any
        (fun e => e.ticketNumber == (Ticket.mk ("CLD-1".toList) ("i2".toList) ("Open".toList) 9 ("p".toList)).ticketNumber)) = true
      ∧ saveTicket [⟨"CLD-1".toList, "i1".toList, "Open".toList, 5, "p".toList⟩]
          ⟨"CLD-1".toList, "i2".toList, "Open".toList, 9, "p".toList⟩
          = (true, [⟨"CLD-1".toList, "i1".toList, "Open".toList, 5, "p".toList⟩]))
    ∧ ((saveTicketEndpoint
          [⟨"CLD-1".toList, "i1".toList, "Open".toList, 5, "p".toList⟩]
          [⟨"CLD-1".toList, "i2".toList, "Open".toList, 9, "p".toList⟩,
           ⟨"INF-2".toList, "i3".toList, "Open".toList, 7, "p".toList⟩]).map
        Ticket.ticketNumber).Nodup
    ∧ (⟨"CLD-1".toList, "i1".toList, "Open".toList, 5, "p".toList⟩ : Ticket) ∈
        saveTicketEndpoint
          [⟨"CLD-1".toList, "i1".toList, "Open".toList, 5, "p".toList⟩]
          [⟨"CLD-1".toList, "i2".toList, "Open".toList, 9, "p".toList⟩,
           ⟨"INF-2".toList, "i3".toList, "Open".toList, 7, "p".toList⟩] :=
  ⟨⟨by decide,
    (claim_C4 [⟨"CLD-1".toList, "i1".toList, "Open".toList, 5, "p".toList⟩]
      ⟨"CLD-1".toList, "i2".toList, "Open".toList, 9, "p".toList⟩ [] []).1 (by decide)⟩,
   (claim_C4 []
      (Ticket.mk [] [] [] 0 [])
      [⟨"CLD-1".toList, "i1".toList, "Open".toList, 5, "p".toList⟩]
      [⟨"CLD-1".toList, "i2".toList, "Open".toList, 9, "p".toList⟩,
       ⟨"INF-2".toList, "i3".toList, "Open".toList, 7, "p".toList⟩]).2.1,
   (claim_C4 []
      (Ticket.mk [] [] [] 0 [])
      [⟨"CLD-1".toList, "i1".toList, "Open".toList, 5, "p".toList⟩]
      [⟨"CLD-1".toList, "i2".toList, "Open".toList, 9, "p".toList⟩,
       ⟨"INF-2".toList, "i3".toList, "Open".toList, 7, "p".toList⟩]).2.2.2.2
     [] [⟨"CLD-1".toList, "i2".toList, "Open".toList, 9, "p".toList⟩,
         ⟨"INF-2".toList, "i3".toList, "Open".toList, 7, "p".toList⟩]
     ⟨"CLD-1".toList, "i1".toList, "Open".toList, 5, "p".toList⟩
     (by decide) (by decide)⟩

/-- The fixed department-letter map stated by the specification
(`C→CLD, I→INF, N→NET, S→SFT, P→PRT, W→WRT`), for comparison with the
source's `ticketPrefixMap`. -/
def specPrefixFor : Char → Str
  | 'C' => "CLD".toList
  | 'I' => "INF".toList
  | 'N' => "NET".toList
  | 'S' => "SFT".toList
  | 'P' => "PRT".toList
  | 'W' => "WRT".toList
  | _ => "TKT".toList

theorem jsPad2_shape : ∀ n, n < 100 →
    (jsPad2 n).length = 2 ∧ (jsPad2 n).all isDigitChar = true := by decide

/-- C2: `generateTicketNumber` returns `PREFIX-HHMMSS-DDMM` with every
time/date field zero-padded to two digits, the prefix obtained from the
selection's department letter by the fixed map, and the "other" selection
(the `Greetings…` sentinel) mapped to `OTR`. -/
theorem claim_C2 (issue : Str) (clk : Clock) :
    (jsStartsWith "Greetings".toList issue = true →
      generateTicketNumber issue clk
        = "OTR".toList ++ "-".toList
            ++ (jsPad2 clk.hh ++ jsPad2 clk.mm ++ jsPad2 clk.ss)
            ++ "-".toList ++ (jsPad2 clk.dd ++ jsPad2 clk.mo))
    ∧ (∀ c : Char, c ∈ ['C', 'I', 'N', 'S', 'P', 'W'] →
        issue.head? = some c →
        jsStartsWith "Greetings".toList issue = false →
        generateTicketNumber issue clk
          = specPrefixFor c ++ "-".toList
              ++ (jsPad2 clk.hh ++ jsPad2 clk.mm ++ jsPad2 clk.ss)
              ++ "-".toList ++ (jsPad2 clk.dd ++ jsPad2 clk.mo))
    ∧ (∀ n, n < 100 → (jsPad2 n).length = 2 ∧ (jsPad2 n).all isDigitChar = true) := by
  refine ⟨?_, ?_, jsPad2_shape⟩
  · intro h
    simp only [generateTicketNumber]
    rw [if_pos h]
  · intro c hc hhead hgreet
    rcases issue with _ | ⟨c₀, rest⟩
    · cases hhead
    · have hc₀ : c₀ = c := by simpa using hhead
      subst hc₀
      fin_cases hc <;>
        (simp only [generateTicketNumber]; rw [if_neg (by simp_all)]; rfl)

/-- Witness for C2: a concrete issue in the Cloud department at a concrete
clock, and the sentinel selection. -/
theorem claim_C2_witness :
    generateTicketNumber ("C1 - Cloud storage is full".toList) ⟨9, 5, 30, 24, 12⟩
      = "CLD-090530-2412".toList
    ∧ generateTicketNumber
        ("Greetings! Please describe the matter you are facing and our team will assist you.".toList)
        ⟨9, 5, 30, 24, 12⟩
      = "OTR-090530-2412".toList := by
  have h1 := (claim_C2 ("C1 - Cloud storage is full".toList) ⟨9, 5, 30, 24, 12⟩).2.1
    'C' (by decide) (by decide) (by decide)
  have h2 := (claim_C2
    ("Greetings! Please describe the matter you are facing and our team will assist you.".toList)
    ⟨9, 5, 30, 24, 12⟩).1 (by decide)
  refine ⟨?_, ?_⟩
  · rw [h1]; decide
  · rw [h2]; decide

theorem issueCodeBranch_frame (r : Responses) (st : InterpState) (c : Str) :
    (issueCodeBranch r st c).state.tickets = st.tickets
    ∧ (issueCodeBranch r st c).state.recentlyProcessedMessages
        = st.recentlyProcessedMessages := by
  unfold issueCodeBranch helpResult
  split <;> simp

theorem deptNumberBranch_frame (r : Responses) (st : InterpState) (c : Str) :
    (deptNumberBranch r st c).state.tickets = st.tickets
    ∧ (deptNumberBranch r st c).state.recentlyProcessedMessages
        = st.recentlyProcessedMessages := by
  unfold deptNumberBranch
  split
  · exact issueCodeBranch_frame r st c
  · split
    · exact issueCodeBranch_frame r st c
    · split
      · exact issueCodeBranch_frame r st c
      · split <;> simp

theorem lookup_mapSet_self (k : Str) (v : Nat) (m : ContentMap) :
    (mapSet k v m).lookup k = some v := by
  induction m with
  | nil => simp [mapSet, List.lookup]
  | cons e rest ih =>
    obtain ⟨k', v'⟩ := e
    by_cases h : k' = k
    · subst h
      simp [mapSet, List.lookup]
    · have hne : (k == k') = false := beq_eq_false_iff_ne.mpr (Ne.symm h)
      simp [mapSet, h, List.lookup, hne]
      exact ih

theorem lookup_sweep_mapSet_self (now : Nat) (k : Str) (m : ContentMap) :
    (sweepContentMap now (mapSet k now m)).lookup k = some now := by
  induction m with
  | nil => simp [mapSet, sweepContentMap, List.lookup]
  | cons e rest ih =>
    obtain ⟨k', v'⟩ := e
    by_cases h : k' = k
    · subst h
      simp [mapSet, sweepContentMap, List.lookup]
    · have hne : (k == k') = false := beq_eq_false_iff_ne.mpr (Ne.symm h)
      by_cases hkeep : 10000 < now - v'
      · simpa [mapSet, h, sweepContentMap, List.lookup, hkeep, hne] using ih
      · simpa [mapSet, h, sweepContentMap, List.lookup, hkeep, hne] using ih

/-- Invocations whose state carries no pending issue never touch the
ticket store, whatever the message. -/
theorem tickets_unchanged_of_no_pending (r : Responses) (st : InterpState)
    (msg : Str) (now : Nat) (clk : Clock)
    (h : st.lastSelectedIssue = none) :
    (handleUserInput r st msg now clk).state.tickets = st.tickets := by
  simp only [handleUserInput]
  split
  · rfl
  split
  · rfl
  split
  · split <;> rfl
  split
  · rfl
  split
  · rename_i hcond
    rw [Bool.and_eq_true] at hcond
    simp [h] at hcond
  split
  · rfl
  split
  · split <;> rfl
  split
  · rfl
  exact (deptNumberBranch_frame r _ _).1

/-- C10: the content-deduplication check runs, and the normalized content
is recorded, before any rule classifies the input.  A suppressed invocation
(identical lowercased content within 10 seconds) returns no response, sends
nothing, and leaves the state — pending issue, content map, and ticket
store — exactly unchanged; a non-suppressed invocation always leaves the
normalized content recorded at the invocation time, whatever rule fires. -/
theorem claim_C10 (r : Responses) (st : InterpState) (msg : Str)
    (now : Nat) (clk : Clock) :
    (contentSuppressed st.recentlyProcessedMessages (jsTrim (jsToLower msg)) now = true →
      handleUserInput r st msg now clk = ⟨none, [], 0, st⟩)
    ∧ (contentSuppressed st.recentlyProcessedMessages (jsTrim (jsToLower msg)) now = false →
      ((handleUserInput r st msg now clk).state.recentlyProcessedMessages).lookup
        (jsTrim (jsToLower msg)) = some now) := by
  constructor
  · intro h
    simp only [handleUserInput]
    rw [if_pos h]
  · intro h
    simp only [handleUserInput]
    rw [if_neg (by simp [h])]
    split
    · exact lookup_mapSet_self _ _ _
    split
    · split <;> exact lookup_mapSet_self _ _ _
    split
    · exact lookup_mapSet_self _ _ _
    split
    · exact lookup_sweep_mapSet_self _ _ _
    split
    · exact lookup_sweep_mapSet_self _ _ _
    split
    · split <;> exact lookup_sweep_mapSet_self _ _ _
    split
    · exact lookup_sweep_mapSet_self _ _ _
    rw [(deptNumberBranch_frame _ _ _).2]
    exact lookup_sweep_mapSet_self _ _ _

/-- Witness for C10: a greeting repeated within 10 seconds (with different
casing and spacing) is fully suppressed; a fresh message gets recorded. -/
theorem claim_C10_witness :
    contentSuppressed [(("hi".toList : Str), 0)] (jsTrim (jsToLower ("HI  ".toList))) 5000 = true
    ∧ handleUserInput sampleResponses ⟨some ("x".toList), [("hi".toList, 0)], []⟩
        ("HI  ".toList) 5000 ⟨0, 0, 0, 0, 0⟩
        = ⟨none, [], 0, ⟨some ("x".toList), [("hi".toList, 0)], []⟩⟩
    ∧ ((handleUserInput sampleResponses ⟨none, [], []⟩ ("#sprout".toList) 7 ⟨0, 0, 0, 0, 0⟩).state.recentlyProcessedMessages).lookup
        (jsTrim (jsToLower ("#sprout".toList))) = some 7 :=
  ⟨by decide,
   (claim_C10 sampleResponses ⟨some ("x".toList), [("hi".toList, 0)], []⟩
     ("HI  ".toList) 5000 ⟨0, 0, 0, 0, 0⟩).1 (by decide),
   (claim_C10 sampleResponses ⟨none, [], []⟩ ("#sprout".toList) 7 ⟨0, 0, 0, 0, 0⟩).2
     (by decide)⟩

/-- On the fall-through path (not suppressed, not a greeting, not the
support-keyword rule) the content map of the resulting state is exactly
the swept map with the current content recorded. -/
theorem handleUserInput_map_eq_sweep (r : Responses) (st : InterpState)
    (msg : Str) (now : Nat) (clk : Clock)
    (hsupp : contentSuppressed st.recentlyProcessedMessages (jsTrim (jsToLower msg)) now = false)
    (hgreet : startsWithGreetingB (jsTrim (jsToLower msg)) = false)
    (hkw : (containsSupportKeywordB r (jsTrim (jsToLower msg))
        && !(jsStartsWith "#sprout".toList (jsTrim (jsToLower msg)))) = false) :
    (handleUserInput r st msg now clk).state.recentlyProcessedMessages
      = sweepContentMap now
          (mapSet (jsTrim (jsToLower msg)) now st.recentlyProcessedMessages) := by
  simp only [handleUserInput]
  rw [if_neg (by simp [hsupp])]
  split
  · rename_i hc
    rw [hgreet] at hc
    simp at hc
  split
  · rename_i hc
    rw [hgreet] at hc
    simp at hc
  split
  · rename_i hc
    rw [hkw] at hc
    simp at hc
  split
  · rfl
  split
  · rfl
  split
  · split <;> rfl
  split
  · rfl
  exact (deptNumberBranch_frame _ _ _).2

theorem mem_sweep_bound {now : Nat} {m : ContentMap} {e : Str × Nat}
    (h : e ∈ sweepContentMap now m) : now - e.2 ≤ 10000 := by
  unfold sweepContentMap at h
  have := List.of_mem_filter h
  simpa [Nat.not_lt] using this

/-- C8 (amended): the purge of content entries older than 10 seconds runs
only on invocations that fall through the dedup check and the
greeting/support-keyword rules; after such an invocation no entry of the
content map is older than 10 seconds. -/
theorem claim_C8 (r : Responses) (st : InterpState) (msg : Str)
    (now : Nat) (clk : Clock)
    (hsupp : contentSuppressed st.recentlyProcessedMessages (jsTrim (jsToLower msg)) now = false)
    (hgreet : startsWithGreetingB (jsTrim (jsToLower msg)) = false)
    (hkw : (containsSupportKeywordB r (jsTrim (jsToLower msg))
        && !(jsStartsWith "#sprout".toList (jsTrim (jsToLower msg)))) = false) :
    ∀ e ∈ (handleUserInput r st msg now clk).state.recentlyProcessedMessages,
      now - e.2 ≤ 10000 := by
  intro e he
  rw [handleUserInput_map_eq_sweep r st msg now clk hsupp hgreet hkw] at he
  exact mem_sweep_bound he

/-- Counterexample for C8 as stated: an invocation answered by the
greeting rule does not purge — an entry recorded 20 seconds before the
invocation is still in the map afterwards. -/
theorem claim_C8_counterexample :
    (handleUserInput sampleResponses ⟨none, [("old entry".toList, 0)], []⟩
        ("hi".toList) 20000 ⟨0, 0, 0, 0, 0⟩).state.recentlyProcessedMessages
      = [("old entry".toList, 0), ("hi".toList, 20000)]
    ∧ 10000 < 20000 - 0 := by
  constructor
  · decide
  · decide

/-- Witness for C8 (amended): a `#sprout` invocation at `now = 20000`
purges the entry recorded at time `0`. -/
theorem claim_C8_witness :
    contentSuppressed [(("old entry".toList : Str), 0)]
        (jsTrim (jsToLower ("#sprout".toList))) 20000 = false
    ∧ startsWithGreetingB (jsTrim (jsToLower ("#sprout".toList))) = false
    ∧ (containsSupportKeywordB sampleResponses (jsTrim (jsToLower ("#sprout".toList)))
        && !(jsStartsWith "#sprout".toList (jsTrim (jsToLower ("#sprout".toList))))) = false
    ∧ ∀ e ∈ (handleUserInput sampleResponses ⟨none, [("old entry".toList, 0)], []⟩
        ("#sprout".toList) 20000 ⟨0, 0, 0, 0, 0⟩).state.recentlyProcessedMessages,
        20000 - e.2 ≤ 10000 :=
  ⟨by decide, by decide, by decide,
   claim_C8 sampleResponses ⟨none, [("old entry".toList, 0)], []⟩
     ("#sprout".toList) 20000 ⟨0, 0, 0, 0, 0⟩ (by decide) (by decide) (by decide)⟩

/-- The `yes` branch in closed form: with a pending issue, an input that
normalizes to `yes`, no suppression and no support keyword in `yes`, the
interpreter creates and saves the ticket, answers with the formatted
confirmation, and resets the pending issue. -/
theorem handleUserInput_yes (r : Responses) (st : InterpState) (msg : Str)
    (now : Nat) (clk : Clock) (issue : Str)
    (hmsg : jsTrim (jsToLower msg) = "yes".toList)
    (hsupp : contentSuppressed st.recentlyProcessedMessages
        (jsTrim (jsToLower msg)) now = false)
    (hkw : containsSupportKeywordB r (jsTrim (jsToLower msg)) = false)
    (hpending : st.lastSelectedIssue = some issue) :
    handleUserInput r st msg now clk =
      ⟨some (ticketConfirmationMessage (generateTicketNumber issue clk)
          (displayIssueOf issue)),
       [], 0,
       ⟨none,
        sweepContentMap now (mapSet ("yes".toList) now st.recentlyProcessedMessages),
        (saveTicket st.tickets (newTicketOf issue now clk)).2⟩⟩ := by
  have hg : startsWithGreetingB (jsTrim (jsToLower msg)) = false := by
    rw [hmsg]; decide
  have hbeq : (jsTrim (jsToLower msg) == "yes".toList) = true := by
    rw [hmsg]; exact beq_self_eq_true _
  simp only [handleUserInput]
  rw [if_neg (by simp [hsupp])]
  split
  · rename_i hc
    rw [hg] at hc
    simp at hc
  split
  · rename_i hc
    rw [hg] at hc
    simp at hc
  split
  · rename_i hc
    rw [hkw] at hc
    simp at hc
  split
  · simp [hpending, hmsg]
  · rename_i hc
    rw [hbeq] at hc
    simp [hpending] at hc

theorem isPrefixOf_append_self (sub post : Str) :
    sub.isPrefixOf (sub ++ post) = true := by
  induction sub with
  | nil => simp [List.isPrefixOf]
  | cons a as ih => simp [List.isPrefixOf, ih]

/-- If `s` decomposes as `pre ++ sub ++ post` then JavaScript
`s.includes(sub)` holds. -/
theorem jsIncludes_of_parts (sub pre post s : Str)
    (h : s = pre ++ (sub ++ post)) : jsIncludes sub s = true := by
  unfold jsIncludes
  rw [List.any_eq_true]
  refine ⟨sub ++ post, ?_, isPrefixOf_append_self sub post⟩
  rw [List.mem_tails]
  exact h ▸ List.suffix_append pre (sub ++ post)

theorem ticketNumberMatches_build (pfx : Str)
    (hp : pfx ∈ ["CLD".toList, "INF".toList, "NET".toList, "SFT".toList,
      "PRT".toList, "WRT".toList, "OTR".toList])
    (a1 a2 a3 a4 a5 a6 b1 b2 b3 b4 : Char)
    (h1 : isDigitChar a1 = true) (h2 : isDigitChar a2 = true)
    (h3 : isDigitChar a3 = true) (h4 : isDigitChar a4 = true)
    (h5 : isDigitChar a5 = true) (h6 : isDigitChar a6 = true)
    (h7 : isDigitChar b1 = true) (h8 : isDigitChar b2 = true)
    (h9 : isDigitChar b3 = true) (h10 : isDigitChar b4 = true) :
    ticketNumberMatches
      (pfx ++ "-".toList ++ ([a1, a2] ++ [a3, a4] ++ [a5, a6])
        ++ "-".toList ++ ([b1, b2] ++ [b3, b4])) = true := by
  fin_cases hp <;>
    simp [ticketNumberMatches, h1, h2, h3, h4, h5, h6, h7, h8, h9, h10]

theorem jsPad2_pair (n : Nat) (h : n < 100) :
    ∃ a b, jsPad2 n = [a, b] ∧ isDigitChar a = true ∧ isDigitChar b = true := by
  obtain ⟨hl, hd⟩ := jsPad2_shape n h
  cases hp : jsPad2 n with
  | nil => rw [hp] at hl; simp at hl
  | cons a rest =>
    cases rest with
    | nil => rw [hp] at hl; simp at hl
    | cons b rest2 =>
      cases rest2 with
      | nil =>
        rw [hp] at hd
        simp [List.all] at hd
        exact ⟨a, b, rfl, hd.1, hd.2⟩
      | cons c rest3 => rw [hp] at hl; simp at hl

theorem jsStartsWith_greetings_false (c : Char) (rest : Str)
    (hne : (('G' : Char) == c) = false) :
    jsStartsWith "Greetings".toList (c :: rest) = false := by
  simp [jsStartsWith, List.isPrefixOf, hne]

theorem prefix_lookup_mem : ∀ c ∈ ['C', 'I', 'N', 'S', 'P', 'W'],
    ((ticketPrefixMap.lookup c).getD "TKT".toList)
      ∈ ["CLD".toList, "INF".toList, "NET".toList, "SFT".toList,
         "PRT".toList, "WRT".toList, "OTR".toList] := by decide

/-- Ticket numbers generated for a valid selection (either the "Other"
sentinel or an issue starting with a mapped department letter) match the
specification's regular expression, for in-range clock fields. -/
theorem ticketNumberMatches_gen (issue : Str) (clk : Clock)
    (hvalid : jsStartsWith "Greetings".toList issue = true
      ∨ ∃ c ∈ ['C', 'I', 'N', 'S', 'P', 'W'], issue.head? = some c)
    (hh : clk.hh < 100) (hm : clk.mm < 100) (hs : clk.ss < 100)
    (hd : clk.dd < 100) (hmo : clk.mo < 100) :
    ticketNumberMatches (generateTicketNumber issue clk) = true := by
  obtain ⟨a1, a2, hA, hA1, hA2⟩ := jsPad2_pair clk.hh hh
  obtain ⟨a3, a4, hB, hB1, hB2⟩ := jsPad2_pair clk.mm hm
  obtain ⟨a5, a6, hC, hC1, hC2⟩ := jsPad2_pair clk.ss hs
  obtain ⟨b1, b2, hD, hD1, hD2⟩ := jsPad2_pair clk.dd hd
  obtain ⟨b3, b4, hE, hE1, hE2⟩ := jsPad2_pair clk.mo hmo
  rcases hvalid with hgreet | ⟨c, hc, hhead⟩
  · simp only [generateTicketNumber]
    rw [if_pos hgreet, hA, hB, hC, hD, hE]
    exact ticketNumberMatches_build _ (by simp) _ _ _ _ _ _ _ _ _ _
      hA1 hA2 hB1 hB2 hC1 hC2 hD1 hD2 hE1 hE2
  · rcases issue with _ | ⟨c₀, rest⟩
    · cases hhead
    · have hc₀ : c₀ = c := by simpa using hhead
      subst hc₀
      have hgreet : jsStartsWith "Greetings".toList (c₀ :: rest) = false :=
        jsStartsWith_greetings_false c₀ rest (by fin_cases hc <;> decide)
      simp only [generateTicketNumber]
      rw [if_neg (by simpa using hgreet), hA, hB, hC, hD, hE]
      exact ticketNumberMatches_build _
        (by simpa using prefix_lookup_mem c₀ hc) _ _ _ _ _ _ _ _ _ _
        hA1 hA2 hB1 hB2 hC1 hC2 hD1 hD2 hE1 hE2

/-- Saving a ticket with a fresh number extends the store by exactly that
ticket (up to the endpoint's reordering). -/
theorem saveTicket_fresh (store : List Ticket) (t : Ticket)
    (hnodup : (store.map Ticket.ticketNumber).Nodup)
    (hfresh : t.ticketNumber ∉ store.map Ticket.ticketNumber) :
    (saveTicket store t).2.Perm (t :: store) := by
  have hany : store.any (fun e => e.ticketNumber == t.ticketNumber) = false := by
    rw [List.any_eq_false]
    intro e he h
    exact hfresh (List.mem_map.mpr ⟨e, he, beq_iff_eq.mp h⟩)
  unfold saveTicket
  rw [if_neg (by simp [hany])]
  show (saveTicketEndpoint store (store ++ [t])).Perm (t :: store)
  unfold saveTicketEndpoint
  have hdedup : dedupTicketsByNumber (store ++ (store ++ [t])) = store ++ [t] := by
    unfold dedupTicketsByNumber
    rw [List.foldl_append]
    have h1 : store.foldl dedupInsert [] = store := by
      have := foldl_dedupInsert_eq_of_nodup (l := store) []
        (by simpa using hnodup)
      simpa using this
    rw [h1, List.foldl_append]
    have h2 : store.foldl dedupInsert store = store :=
      foldl_dedupInsert_eq_of_covered (fun x hx => ⟨x, hx, rfl⟩)
    rw [h2]
    show List.foldl dedupInsert store [t] = store ++ [t]
    simp [dedupInsert, hany]
  rw [hdedup]
  exact (List.perm_insertionSort _ _).trans (List.perm_append_singleton t store)

/-- C1: with a pending issue awaiting confirmation, an input normalizing to
`yes` creates exactly one ticket whose number matches
`^(CLD|INF|NET|SFT|PRT|WRT|OTR)-\d{6}-\d{4}$`, answers with a confirmation
containing the ticket number, the issue text, and the status, and resets
the session to idle; afterwards (no pending issue) no input — in particular
a second `yes` — creates another ticket. -/
theorem claim_C1 (r : Responses) (st : InterpState) (msg : Str) (now : Nat)
    (clk : Clock) (issue : Str)
    (hmsg : jsTrim (jsToLower msg) = "yes".toList)
    (hsupp : contentSuppressed st.recentlyProcessedMessages
        (jsTrim (jsToLower msg)) now = false)
    (hkw : containsSupportKeywordB r (jsTrim (jsToLower msg)) = false)
    (hpending : st.lastSelectedIssue = some issue)
    (hvalid : jsStartsWith "Greetings".toList issue = true
      ∨ ∃ c ∈ ['C', 'I', 'N', 'S', 'P', 'W'], issue.head? = some c)
    (hh : clk.hh < 100) (hm : clk.mm < 100) (hs : clk.ss < 100)
    (hd : clk.dd < 100) (hmo : clk.mo < 100)
    (hnodup : (st.tickets.map Ticket.ticketNumber).Nodup)
    (hfresh : generateTicketNumber issue clk ∉ st.tickets.map Ticket.ticketNumber) :
    ticketNumberMatches (generateTicketNumber issue clk) = true
    ∧ (handleUserInput r st msg now clk).state.tickets.Perm
        (newTicketOf issue now clk :: st.tickets)
    ∧ (∃ resp, (handleUserInput r st msg now clk).response = some resp
        ∧ jsIncludes (generateTicketNumber issue clk) resp = true
        ∧ jsIncludes (issueTextOf issue) resp = true
        ∧ jsIncludes ("Status: Open".toList) resp = true)
    ∧ (handleUserInput r st msg now clk).state.lastSelectedIssue = none
    ∧ (∀ (st' : InterpState) (msg' : Str) (now' : Nat) (clk' : Clock),
        st'.lastSelectedIssue = none →
        (handleUserInput r st' msg' now' clk').state.tickets = st'.tickets) := by
  have hrun := handleUserInput_yes r st msg now clk issue hmsg hsupp hkw hpending
  refine ⟨ticketNumberMatches_gen issue clk hvalid hh hm hs hd hmo, ?_, ?_, ?_, ?_⟩
  · rw [hrun]
    exact saveTicket_fresh st.tickets (newTicketOf issue now clk) hnodup hfresh
  · rw [hrun]
    refine ⟨_, rfl, ?_, ?_, ?_⟩
    · refine jsIncludes_of_parts _
        ("Ticket created successfully!\n\nTicket Details:\nTicket Number: ".toList)
        ("\nIssue: ".toList ++ (displayIssueOf issue
          ++ "\nStatus: Open\n\nWe will contact you shortly regarding this ticket.\n\nType #sprout to return to the main menu.".toList))
        _ ?_
      simp [ticketConfirmationMessage, List.append_assoc]
    · by_cases hdisp : (issueTextOf issue == "None Specified".toList) = true
      · have hdispEq : displayIssueOf issue = "Other - None Specified".toList := by
          unfold displayIssueOf
          rw [if_pos hdisp]
        have heq : issueTextOf issue = "None Specified".toList := beq_iff_eq.mp hdisp
        refine jsIncludes_of_parts _
          ("Ticket created successfully!\n\nTicket Details:\nTicket Number: ".toList
            ++ (generateTicketNumber issue clk
              ++ ("\nIssue: ".toList ++ "Other - ".toList)))
          ("\nStatus: Open\n\nWe will contact you shortly regarding this ticket.\n\nType #sprout to return to the main menu.".toList)
          _ ?_

        rw [heq]
        simp only [ticketConfirmationMessage, hdispEq]
        rw [(by decide : ("Other - None Specified".toList : Str)
          = "Other - ".toList ++ "None Specified".toList)]
        simp [List.append_assoc]
      · have hdispEq : displayIssueOf issue = issueTextOf issue := by
          unfold displayIssueOf
          rw [if_neg hdisp]
        refine jsIncludes_of_parts _
          ("Ticket created successfully!\n\nTicket Details:\nTicket Number: ".toList
            ++ (generateTicketNumber issue clk ++ "\nIssue: ".toList))
          ("\nStatus: Open\n\nWe will contact you shortly regarding this ticket.\n\nType #sprout to return to the main menu.".toList)
          _ ?_
        simp only [ticketConfirmationMessage, hdispEq]
        simp [List.append_assoc]
    · refine jsIncludes_of_parts _
        ("Ticket created successfully!\n\nTicket Details:\nTicket Number: ".toList
          ++ (generateTicketNumber issue clk
            ++ ("\nIssue: ".toList ++ (displayIssueOf issue ++ "\n".toList))))
        ("\n\nWe will contact you shortly regarding this ticket.\n\nType #sprout to return to the main menu.".toList)
        _ ?_
      simp only [ticketConfirmationMessage]
      rw [(by decide :
        ("\nStatus: Open\n\nWe will contact you shortly regarding this ticket.\n\nType #sprout to return to the main menu.".toList : Str)
          = "\n".toList ++ ("Status: Open".toList
            ++ "\n\nWe will contact you shortly regarding this ticket.\n\nType #sprout to return to the main menu.".toList))]
      simp [List.append_assoc]
  · rw [hrun]
  · exact fun st' msg' now' clk' h =>
      tickets_unchanged_of_no_pending r st' msg' now' clk' h

/-- Witness for C1: confirming issue `I3` at a concrete state and clock. -/
theorem claim_C1_witness :
    ticketNumberMatches (generateTicketNumber
        ("I3 - Virtual machine will not start".toList) ⟨1, 2, 3, 4, 5⟩) = true
    ∧ (handleUserInput sampleResponses
        ⟨some ("I3 - Virtual machine will not start".toList), [], []⟩
        ("YES ".toList) 1000 ⟨1, 2, 3, 4, 5⟩).state.tickets.Perm
        [newTicketOf ("I3 - Virtual machine will not start".toList) 1000 ⟨1, 2, 3, 4, 5⟩]
    ∧ (handleUserInput sampleResponses
        ⟨some ("I3 - Virtual machine will not start".toList), [], []⟩
        ("YES ".toList) 1000 ⟨1, 2, 3, 4, 5⟩).state.lastSelectedIssue = none := by
  have h := claim_C1 sampleResponses
    ⟨some ("I3 - Virtual machine will not start".toList), [], []⟩
    ("YES ".toList) 1000 ⟨1, 2, 3, 4, 5⟩
    ("I3 - Virtual machine will not start".toList)
    (by decide) (by decide) (by decide) (by decide)
    (Or.inr ⟨'I', by decide, by decide⟩)
    (by decide) (by decide) (by decide) (by decide) (by decide)
    (by decide) (by decide)
  exact ⟨h.1, h.2.1, h.2.2.2.1⟩

theorem exists_of_isPrefixOf {p s : Str} (h : p.isPrefixOf s = true) :
    ∃ t, s = p ++ t := by
  induction p generalizing s with
  | nil => exact ⟨s, rfl⟩
  | cons a as ih =>
    cases s with
    | nil => simp [List.isPrefixOf] at h
    | cons b bs =>
      simp only [List.isPrefixOf, Bool.and_eq_true, beq_iff_eq] at h
      obtain ⟨t, ht⟩ := ih h.2
      exact ⟨t, by simp [h.1, ht]⟩

theorem startsWithGreetingB_sprout {lm : Str}
    (h : jsStartsWith "#sprout".toList lm = true) :
    startsWithGreetingB lm = false := by
  obtain ⟨t, rfl⟩ := exists_of_isPrefixOf h
  simp [startsWithGreetingB, greetingStarters, List.isPrefixOf,
    (by decide : (('h' : Char) == '#') = false),
    (by decide : (('g' : Char) == '#') = false)]

theorem beq_yes_sprout {lm : Str}
    (h : jsStartsWith "#sprout".toList lm = true) :
    (lm == "yes".toList) = false := by
  obtain ⟨t, rfl⟩ := exists_of_isPrefixOf h
  apply beq_eq_false_iff_ne.mpr
  intro heq
  have hlen := congrArg List.length heq
  simp at hlen

/-- Any non-suppressed input that starts with the menu entry command (after
normalization) and matches no farewell reaches the `#sprout` command
grammar, with the content entry recorded and old entries swept. -/
theorem handleUserInput_sprout (r : Responses) (st : InterpState) (msg : Str)
    (now : Nat) (clk : Clock)
    (hsupp : contentSuppressed st.recentlyProcessedMessages
        (jsTrim (jsToLower msg)) now = false)
    (hsp : jsStartsWith "#sprout".toList (jsTrim (jsToLower msg)) = true)
    (hfw : findFarewellReply r.farewells (jsTrim (jsToLower msg)) = none) :
    handleUserInput r st msg now clk =
      if jsTrim (jsReplaceFirst "#sprout".toList (jsTrim (jsToLower msg))) == [] then
        ⟨some (List.intercalate ['\n'] r.sproutMenu), [], 0,
         ⟨none,
          sweepContentMap now
            (mapSet (jsTrim (jsToLower msg)) now st.recentlyProcessedMessages),
          st.tickets⟩⟩
      else
        deptNumberBranch r
          ⟨st.lastSelectedIssue,
           sweepContentMap now
             (mapSet (jsTrim (jsToLower msg)) now st.recentlyProcessedMessages),
           st.tickets⟩
          (jsTrim (jsReplaceFirst "#sprout".toList (jsTrim (jsToLower msg)))) := by
  have hg := startsWithGreetingB_sprout hsp
  have hyes := beq_yes_sprout hsp
  simp only [handleUserInput]
  rw [if_neg (by simp [hsupp])]
  split
  · rename_i hc
    rw [hg] at hc
    simp at hc
  split
  · rename_i hc
    rw [hg] at hc
    simp at hc
  split
  · rename_i hc
    rw [hsp] at hc
    simp at hc
  split
  · rename_i hc
    rw [Bool.and_eq_true] at hc
    rw [hyes] at hc
    simp at hc
  split
  · rename_i resp heq
    rw [hfw] at heq
    simp at heq
  rw [if_neg (by rw [hsp]; decide)]

/-- C9: a `#sprout` input whose remainder matches neither a department
number `01`–`07` nor a valid issue code returns the help text and leaves
the pending issue untouched, so a later `yes` still confirms the
previously selected issue; by contrast the bare root-menu command and a
department list `01`–`06` reset the pending issue to none. -/
theorem claim_C9 (r : Responses) (st : InterpState) (msg : Str) (now : Nat)
    (clk : Clock)
    (hsupp : contentSuppressed st.recentlyProcessedMessages
        (jsTrim (jsToLower msg)) now = false)
    (hsp : jsStartsWith "#sprout".toList (jsTrim (jsToLower msg)) = true)
    (hfw : findFarewellReply r.farewells (jsTrim (jsToLower msg)) = none) :
    ((jsTrim (jsReplaceFirst "#sprout".toList (jsTrim (jsToLower msg))) == []) = false →
      deptNumberMatch (jsTrim (jsReplaceFirst "#sprout".toList (jsTrim (jsToLower msg)))) = none →
      resolveIssue r (jsTrim (jsReplaceFirst "#sprout".toList (jsTrim (jsToLower msg)))) = none →
      (handleUserInput r st msg now clk).response = some helpMessage
      ∧ (handleUserInput r st msg now clk).state.lastSelectedIssue
          = st.lastSelectedIssue
      ∧ (∀ (issue : Str) (now' : Nat) (clk' : Clock),
          st.lastSelectedIssue = some issue →
          contentSuppressed
            (handleUserInput r st msg now clk).state.recentlyProcessedMessages
            (jsTrim (jsToLower ("yes".toList))) now' = false →
          containsSupportKeywordB r (jsTrim (jsToLower ("yes".toList))) = false →
          (handleUserInput r (handleUserInput r st msg now clk).state
              ("yes".toList) now' clk').response
            = some (ticketConfirmationMessage (generateTicketNumber issue clk')
                (displayIssueOf issue))))
    ∧ ((jsTrim (jsReplaceFirst "#sprout".toList (jsTrim (jsToLower msg))) == []) = true →
      (handleUserInput r st msg now clk).state.lastSelectedIssue = none
      ∧ (handleUserInput r st msg now clk).response
          = some (List.intercalate ['\n'] r.sproutMenu))
    ∧ (∀ (deptNum dept : Str) (issues : List Str),
      deptNumberMatch (jsTrim (jsReplaceFirst "#sprout".toList (jsTrim (jsToLower msg)))) = some deptNum →
      departmentsByNumber.lookup deptNum = some dept →
      (r.deptObjects.lookup dept).bind (fun obj => obj.lookup deptNum) = some issues →
      (deptNum == "07".toList) = false →
      (handleUserInput r st msg now clk).state.lastSelectedIssue = none
      ∧ (handleUserInput r st msg now clk).response
          = some (List.intercalate ['\n'] issues)) := by
  have hrun := handleUserInput_sprout r st msg now clk hsupp hsp hfw
  refine ⟨?_, ?_, ?_⟩
  · intro hne hdm hri
    have hhelp : handleUserInput r st msg now clk
        = helpResult
            ⟨st.lastSelectedIssue,
             sweepContentMap now
               (mapSet (jsTrim (jsToLower msg)) now st.recentlyProcessedMessages),
             st.tickets⟩ := by
      rw [hrun, if_neg (by simpa using hne), deptNumberBranch, hdm]
      simp only [issueCodeBranch, hri]
    refine ⟨by rw [hhelp]; rfl, by rw [hhelp]; rfl, ?_⟩
    intro issue now' clk' hpending hsupp2 hkw2
    rw [handleUserInput_yes r _ ("yes".toList) now' clk' issue (by decide)
      hsupp2 hkw2 (by rw [hhelp]; exact hpending)]
  · intro hroot
    rw [hrun, if_pos hroot]
    exact ⟨rfl, rfl⟩
  · intro deptNum dept issues hdm hdept hobj h07
    have hne : (jsTrim (jsReplaceFirst "#sprout".toList (jsTrim (jsToLower msg))) == []) = false := by
      rcases hcmd : jsTrim (jsReplaceFirst "#sprout".toList (jsTrim (jsToLower msg))) with _ | ⟨a, rest⟩
      · rw [hcmd] at hdm
        simp [deptNumberMatch] at hdm
      · simp
    rw [hrun, if_neg (by simpa using hne), deptNumberBranch, hdm]
    simp only [hdept, hobj, h07]
    exact ⟨rfl, rfl⟩

/-- Witness for C9: `#sprout c99` answers with help and keeps the pending
issue `P1`, whose later `yes` still creates the ticket; `#sprout` and
`#sprout 02` reset the pending issue. -/
theorem claim_C9_witness :
    ((handleUserInput sampleResponses
        ⟨some ("P1 - Printer does not print".toList), [], []⟩
        ("#sprout c99".toList) 0 ⟨1, 2, 3, 4, 5⟩).response = some helpMessage
      ∧ (handleUserInput sampleResponses
          ⟨some ("P1 - Printer does not print".toList), [], []⟩
          ("#sprout c99".toList) 0 ⟨1, 2, 3, 4, 5⟩).state.lastSelectedIssue
          = some ("P1 - Printer does not print".toList)
      ∧ (handleUserInput sampleResponses
          (handleUserInput sampleResponses
            ⟨some ("P1 - Printer does not print".toList), [], []⟩
            ("#sprout c99".toList) 0 ⟨1, 2, 3, 4, 5⟩).state
          ("yes".toList) 20000 ⟨1, 2, 3, 4, 5⟩).response
          = some (ticketConfirmationMessage
              (generateTicketNumber ("P1 - Printer does not print".toList) ⟨1, 2, 3, 4, 5⟩)
              (displayIssueOf ("P1 - Printer does not print".toList))))
    ∧ (handleUserInput sampleResponses
        ⟨some ("P1 - Printer does not print".toList), [], []⟩
        ("#sprout".toList) 0 ⟨1, 2, 3, 4, 5⟩).state.lastSelectedIssue = none
    ∧ (handleUserInput sampleResponses
        ⟨some ("P1 - Printer does not print".toList), [], []⟩
        ("#sprout 02".toList) 0 ⟨1, 2, 3, 4, 5⟩).state.lastSelectedIssue = none := by
  have h1 := claim_C9 sampleResponses
    ⟨some ("P1 - Printer does not print".toList), [], []⟩
    ("#sprout c99".toList) 0 ⟨1, 2, 3, 4, 5⟩
    (by decide) (by decide) (by decide)
  have h2 := claim_C9 sampleResponses
    ⟨some ("P1 - Printer does not print".toList), [], []⟩
    ("#sprout".toList) 0 ⟨1, 2, 3, 4, 5⟩
    (by decide) (by decide) (by decide)
  have h3 := claim_C9 sampleResponses
    ⟨some ("P1 - Printer does not print".toList), [], []⟩
    ("#sprout 02".toList) 0 ⟨1, 2, 3, 4, 5⟩
    (by decide) (by decide) (by decide)
  obtain ⟨ha, hb, hc⟩ := h1.1 (by decide) (by decide) (by decide)
  refine ⟨⟨ha, by rw [hb], ?_⟩, (h2.2.1 (by decide)).1, ?_⟩
  · exact hc ("P1 - Printer does not print".toList) 20000 ⟨1, 2, 3, 4, 5⟩ rfl
      (by decide) (by decide)
  · exact (h3.2.2 ("02".toList) ("Infrastructure Department".toList)
      (sampleResponses.deptObjects.lookup ("Infrastructure Department".toList)
        |>.getD [] |>.lookup ("02".toList) |>.getD [])
      (by decide) (by decide) (by decide) (by decide)).1

/-- C3: rule priority — when the text both starts with a greeting starter
and contains a support keyword, the combined greeting+support rule fires
(sending the support greeting with the logo, rather than a greeting-table
or support-only answer); `yes` acts as a confirmation only when an issue is
pending, and otherwise — matching no farewell and containing no support
keyword — it falls through every rule and is ignored with no state change
beyond the dedup bookkeeping. -/
theorem claim_C3 (r : Responses) (st : InterpState) (msg : Str) (now : Nat)
    (clk : Clock)
    (hsupp : contentSuppressed st.recentlyProcessedMessages
        (jsTrim (jsToLower msg)) now = false) :
    (startsWithGreetingB (jsTrim (jsToLower msg)) = true →
      containsSupportKeywordB r (jsTrim (jsToLower msg)) = true →
      handleUserInput r st msg now clk
        = ⟨none, [r.support_greeting], 1,
           ⟨st.lastSelectedIssue,
            mapSet (jsTrim (jsToLower msg)) now st.recentlyProcessedMessages,
            st.tickets⟩⟩)
    ∧ (∀ issue : Str, jsTrim (jsToLower msg) = "yes".toList →
        containsSupportKeywordB r (jsTrim (jsToLower msg)) = false →
        st.lastSelectedIssue = some issue →
        (handleUserInput r st msg now clk).response
          = some (ticketConfirmationMessage (generateTicketNumber issue clk)
              (displayIssueOf issue)))
    ∧ (jsTrim (jsToLower msg) = "yes".toList →
        containsSupportKeywordB r (jsTrim (jsToLower msg)) = false →
        st.lastSelectedIssue = none →
        findFarewellReply r.farewells (jsTrim (jsToLower msg)) = none →
        handleUserInput r st msg now clk
          = ⟨none, [], 0,
             ⟨none,
              sweepContentMap now
                (mapSet (jsTrim (jsToLower msg)) now st.recentlyProcessedMessages),
              st.tickets⟩⟩) := by
  refine ⟨?_, ?_, ?_⟩
  · intro hg hkw
    simp only [handleUserInput]
    rw [if_neg (by simp [hsupp])]
    rw [if_pos (by rw [hg, hkw]; rfl)]
  · intro issue hmsg hkw hpending
    rw [handleUserInput_yes r st msg now clk issue hmsg hsupp hkw hpending]
  · intro hmsg hkw hpending hfw
    have hg : startsWithGreetingB (jsTrim (jsToLower msg)) = false := by
      rw [hmsg]; decide
    have hsp : jsStartsWith "#sprout".toList (jsTrim (jsToLower msg)) = false := by
      rw [hmsg]; decide
    simp only [handleUserInput]
    rw [if_neg (by simp [hsupp])]
    split
    · rename_i hc
      rw [hg] at hc
      simp at hc
    split
    · rename_i hc
      rw [hg] at hc
      simp at hc
    split
    · rename_i hc
      rw [hkw] at hc
      simp at hc
    split
    · rename_i hc
      rw [Bool.and_eq_true] at hc
      simp [hpending] at hc
    split
    · rename_i resp heq
      rw [hfw] at heq
      simp at heq
    rw [if_pos (by rw [hsp]; rfl)]
    rw [if_neg (by simp [hkw])]
    simp [hpending]

/-- Witness for C3: the combined rule at `hello i need support`; `yes`
confirming a pending `P1` issue; `yes` with no pending issue ignored. -/
theorem claim_C3_witness :
    handleUserInput sampleResponses ⟨none, [], []⟩
        ("hello i need support".toList) 0 ⟨0, 0, 0, 0, 0⟩
      = ⟨none, [sampleResponses.support_greeting], 1,
         ⟨none, [("hello i need support".toList, 0)], []⟩⟩
    ∧ (handleUserInput sampleResponses
        ⟨some ("P1 - Printer does not print".toList), [], []⟩
        ("yes".toList) 0 ⟨0, 0, 0, 0, 0⟩).response
      = some (ticketConfirmationMessage
          (generateTicketNumber ("P1 - Printer does not print".toList) ⟨0, 0, 0, 0, 0⟩)
          (displayIssueOf ("P1 - Printer does not print".toList)))
    ∧ handleUserInput sampleResponses ⟨none, [], []⟩ ("yes".toList) 0 ⟨0, 0, 0, 0, 0⟩
      = ⟨none, [], 0, ⟨none, [("yes".toList, 0)], []⟩⟩ := by
  have h1 := (claim_C3 sampleResponses ⟨none, [], []⟩
    ("hello i need support".toList) 0 ⟨0, 0, 0, 0, 0⟩ (by decide)).1
    (by decide) (by decide)
  have h2 := (claim_C3 sampleResponses
    ⟨some ("P1 - Printer does not print".toList), [], []⟩
    ("yes".toList) 0 ⟨0, 0, 0, 0, 0⟩ (by decide)).2.1
    ("P1 - Printer does not print".toList) (by decide) (by decide) rfl
  have h3 := (claim_C3 sampleResponses ⟨none, [], []⟩
    ("yes".toList) 0 ⟨0, 0, 0, 0, 0⟩ (by decide)).2.2
    (by decide) (by decide) rfl (by decide)
  exact ⟨h1.trans (by decide), h2, h3.trans (by decide)⟩

end SupposedBot
